import Mathlib

/-!
Shallow embedding of the KubeVirt virt-handler Prometheus collector
(`pkg/virt-handler/rest/prometheus.go`, package `prometheus` in the
provided sources).

Modelling conventions:

* Go `uint64`/`int` statistic values are modelled as `Nat`.  Every sample
  value the embedded code produces is a natural number (KiB values times
  1024, raw counters, the integer division `vcpu.Time/1000000000`
  performed before the `float64` conversion in the source, phase tallies,
  and the constant 1), so the `float64` carrier is modelled as `Nat`.
* Go maps (`vmi.Labels`, `vmi.Annotations`, the phases map, the socket
  map) are modelled as association lists; one traversal order of the
  unordered Go map is fixed by the list order.
* A `chan<- prometheus.Metric` is modelled as the list of metrics sent
  on it, in send order.
* `strings.NewReplacer(".", "_", "/", "_", "-", "_")` has only
  single-byte patterns and replacements, so `Replace` is the
  per-character substitution embedded below.
* Package-level mutable variables (the `var (...)` block of label slices
  and descriptors) are gathered in an explicit state record `PkgVars`
  threaded through the update functions, which reassign its fields
  exactly where the source assigns the globals.
-/

namespace KVMetrics

/-- One VMI descriptor: the parts of `k6tv1.VirtualMachineInstance` the
collector reads (`vmi.Namespace`, `vmi.Name`, `vmi.Status.NodeName`,
`vmi.Status.Phase`, `vmi.Labels`, `vmi.Annotations`).  `nspace` stands
for the Go field `Namespace`; `annots` for `Annotations`. -/
structure VMI where
  nspace : String
  name : String
  nodeName : String
  phase : String
  labels : List (String × String)
  annots : List (String × String)
deriving DecidableEq

/-- `stats.DomainStatsMemory`: each statistic carries its own set flag. -/
structure DomainStatsMemory where
  rss : Nat
  rssSet : Bool
  available : Nat
  availableSet : Bool
  swapIn : Nat
  swapInSet : Bool
  swapOut : Nat
  swapOutSet : Bool
deriving DecidableEq

/-- `stats.DomainStatsVcpu`. -/
structure DomainStatsVcpu where
  state : Nat
  stateSet : Bool
  time : Nat
  timeSet : Bool
deriving DecidableEq

/-- `stats.DomainStatsBlock`. -/
structure DomainStatsBlock where
  name : String
  nameSet : Bool
  rdReqs : Nat
  rdReqsSet : Bool
  wrReqs : Nat
  wrReqsSet : Bool
  rdBytes : Nat
  rdBytesSet : Bool
  wrBytes : Nat
  wrBytesSet : Bool
  rdTimes : Nat
  rdTimesSet : Bool
  wrTimes : Nat
  wrTimesSet : Bool
deriving DecidableEq

/-- `stats.DomainStatsNet`. -/
structure DomainStatsNet where
  name : String
  nameSet : Bool
  rxBytes : Nat
  rxBytesSet : Bool
  rxPkts : Nat
  rxPktsSet : Bool
  rxErrs : Nat
  rxErrsSet : Bool
  txBytes : Nat
  txBytesSet : Bool
  txPkts : Nat
  txPktsSet : Bool
  txErrs : Nat
  txErrsSet : Bool
deriving DecidableEq

/-- `stats.DomainStats`: the record fetched over the command socket. -/
structure DomainStats where
  name : String
  memory : DomainStatsMemory
  vcpu : List DomainStatsVcpu
  block : List DomainStatsBlock
  net : List DomainStatsNet
deriving DecidableEq

/-- `prometheus.Desc` as the collector uses it: fully-qualified name,
help text, ordered variable label names (`constLabels` is always nil). -/
structure Desc where
  fqName : String
  help : String
  labelNames : List String
deriving DecidableEq

/-- `prometheus.ValueType`: only gauge and counter are used. -/
inductive ValueType where
  | gauge
  | counter
deriving DecidableEq

/-- A const metric as produced by `prometheus.NewConstMetric`. -/
structure Metric where
  desc : Desc
  vtype : ValueType
  value : Nat
  labelValues : List String
deriving DecidableEq

/-- `prometheus.NewConstMetric`: fails with `errInconsistentCardinality`
when the number of label values differs from the descriptor's number of
variable label names. -/
def newConstMetric (desc : Desc) (vt : ValueType) (value : Nat)
    (labelValues : List String) : Except String Metric :=
  if labelValues.length = desc.labelNames.length then
    Except.ok { desc := desc, vtype := vt, value := value, labelValues := labelValues }
  else
    Except.error "inconsistent label cardinality"

/-- `tryToPushMetric`: on a construction error only log and drop the
metric, otherwise send it on the channel. -/
def tryToPushMetric (r : Except String Metric) (ch : List Metric) : List Metric :=
  match r with
  | Except.ok mv => ch ++ [mv]
  | Except.error _ => ch

/-- `labelFormatter = strings.NewReplacer(".", "_", "/", "_", "-", "_")`;
single-byte patterns make `Replace` a per-character substitution
(implemented on the character list so that it is kernel-reducible). -/
def labelFormatter (s : String) : String :=
  String.mk (s.data.map (fun c =>
    if c = '.' then '_' else if c = '/' then '_' else if c = '-' then '_' else c))

/-- `strings.ToLower` on the character list (the phase strings are
ASCII). -/
def lowerString (s : String) : String :=
  String.mk (s.data.map Char.toLower)

/-- `versionDesc` (assigned once in the `var` block, never reassigned). -/
def versionDesc : Desc :=
  { fqName := "kubevirt_info", help := "Version information",
    labelNames := ["goversion", "kubeversion"] }

/-- `vmiCountDesc` (assigned once in the `var` block, never reassigned). -/
def vmiCountDesc : Desc :=
  { fqName := "kubevirt_vmi_phase_count", help := "VMI phase.",
    labelNames := ["node", "phase"] }

/-- The package-level mutable variables of the `var` block: the label
slices and the descriptors that the update functions reassign. -/
structure PkgVars where
  storageIopsLabels : List String
  storageIopsDesc : Desc
  storageTrafficLabels : List String
  storageTrafficDesc : Desc
  storageTimesLabels : List String
  storageTimesDesc : Desc
  vcpuUsageLabels : List String
  vcpuUsageDesc : Desc
  networkTrafficBytesLabels : List String
  networkTrafficBytesDesc : Desc
  networkTrafficPktsLabels : List String
  networkTrafficPktsDesc : Desc
  networkErrorsLabels : List String
  networkErrorsDesc : Desc
  memoryAvailableLabels : List String
  memoryAvailableDesc : Desc
  memoryResidentLabels : List String
  memoryResidentDesc : Desc
  swapTrafficLabels : List String
  swapTrafficDesc : Desc
deriving DecidableEq

/-- The initial values of the package-level variables, as assigned in the
`var` block at package initialization. -/
def initPkgVars : PkgVars :=
  { storageIopsLabels := ["node", "namespace", "name", "drive", "type"]
    storageIopsDesc :=
      { fqName := "kubevirt_vmi_storage_iops_total", help := "I/O operation performed.",
        labelNames := ["node", "namespace", "name", "drive", "type"] }
    storageTrafficLabels := ["node", "namespace", "name", "drive", "type"]
    storageTrafficDesc :=
      { fqName := "kubevirt_vmi_storage_traffic_bytes_total", help := "storage traffic.",
        labelNames := ["node", "namespace", "name", "drive", "type"] }
    storageTimesLabels := ["node", "namespace", "name", "drive", "type"]
    storageTimesDesc :=
      { fqName := "kubevirt_vmi_storage_times_ms_total", help := "storage operation time.",
        labelNames := ["node", "namespace", "name", "drive", "type"] }
    vcpuUsageLabels := ["node", "namespace", "name", "id", "state"]
    vcpuUsageDesc :=
      { fqName := "kubevirt_vmi_vcpu_seconds", help := "Vcpu elapsed time.",
        labelNames := ["node", "namespace", "name", "id", "state"] }
    networkTrafficBytesLabels := ["node", "namespace", "name", "interface", "type"]
    networkTrafficBytesDesc :=
      { fqName := "kubevirt_vmi_network_traffic_bytes_total", help := "network traffic.",
        labelNames := ["node", "namespace", "name", "interface", "type"] }
    networkTrafficPktsLabels := ["node", "namespace", "name", "interface", "type"]
    networkTrafficPktsDesc :=
      { fqName := "kubevirt_vmi_network_traffic_packets_total", help := "network traffic.",
        labelNames := ["node", "namespace", "name", "interface", "type"] }
    networkErrorsLabels := ["node", "namespace", "name", "interface", "type"]
    networkErrorsDesc :=
      { fqName := "kubevirt_vmi_network_errors_total", help := "network errors.",
        labelNames := ["node", "namespace", "name", "interface", "type"] }
    memoryAvailableLabels := ["node", "namespace", "name"]
    memoryAvailableDesc :=
      { fqName := "kubevirt_vmi_memory_available_bytes",
        help := "amount of usable memory as seen by the domain.",
        labelNames := ["node", "namespace", "name"] }
    memoryResidentLabels := ["node", "namespace", "name"]
    memoryResidentDesc :=
      { fqName := "kubevirt_vmi_memory_resident_bytes",
        help := "resident set size of the process running the domain",
        labelNames := ["node", "namespace", "name"] }
    swapTrafficLabels := ["node", "namespace", "name", "type"]
    swapTrafficDesc :=
      { fqName := "kubevirt_vmi_memory_swap_traffic_bytes_total", help := "swap memory traffic.",
        labelNames := ["node", "namespace", "name", "type"] } }

/-- The seven lists the metadata loops of `updateMemory` grow: the three
label-name slices and the four label-value slices. -/
structure MemLoopSt where
  residentNames : List String
  residentVals : List String
  availableNames : List String
  availableVals : List String
  swapNames : List String
  swapInVals : List String
  swapOutVals : List String
deriving DecidableEq

/-- One iteration of a metadata loop of `updateMemory`: append the
sanitized, prefixed key to each label-name slice and the raw value to
each label-value slice. -/
def memAppendEntry (pfx : String) (st : MemLoopSt) (kv : String × String) : MemLoopSt :=
  { residentNames := st.residentNames ++ [pfx ++ labelFormatter kv.1]
    residentVals := st.residentVals ++ [kv.2]
    availableNames := st.availableNames ++ [pfx ++ labelFormatter kv.1]
    availableVals := st.availableVals ++ [kv.2]
    swapNames := st.swapNames ++ [pfx ++ labelFormatter kv.1]
    swapInVals := st.swapInVals ++ [kv.2]
    swapOutVals := st.swapOutVals ++ [kv.2] }

/-- The state of the `updateMemory` loops after both the `vmi.Labels`
and the `vmi.Annotations` loop have run. -/
def memLoopResult (vmi : VMI) : MemLoopSt :=
  let st0 : MemLoopSt :=
    { residentNames := ["node", "namespace", "name"]
      residentVals := [vmi.nodeName, vmi.nspace, vmi.name]
      availableNames := ["node", "namespace", "name"]
      availableVals := [vmi.nodeName, vmi.nspace, vmi.name]
      swapNames := ["node", "namespace", "name", "type"]
      swapInVals := [vmi.nodeName, vmi.nspace, vmi.name, "in"]
      swapOutVals := [vmi.nodeName, vmi.nspace, vmi.name, "out"] }
  let st1 := vmi.labels.foldl (memAppendEntry "vmi_k8s_label_") st0
  vmi.annots.foldl (memAppendEntry "vmi_k8s_annotation_") st1

/-- `updateMemory`: emits the resident/available/swap-in/swap-out samples
guarded by their set flags, and reassigns the package-level label slices
and descriptors of the memory families exactly as the source does.
Returns the metrics sent on `ch` (in order) and the package state after
the call. -/
def updateMemory (vmi : VMI) (vmStats : DomainStats) (g : PkgVars) :
    List Metric × PkgVars :=
  let st := memLoopResult vmi
  let memoryResidentDesc : Desc :=
    { fqName := "kubevirt_vmi_memory_resident_bytes",
      help := "resident set size of the process running the domain",
      labelNames := st.residentNames }
  let memoryAvailableDesc : Desc :=
    { fqName := "kubevirt_vmi_memory_available_bytes",
      help := "amount of usable memory as seen by the domain.",
      labelNames := st.availableNames }
  let swapTrafficDesc : Desc :=
    { fqName := "kubevirt_vmi_memory_swap_traffic_bytes_total",
      help := "swap memory traffic.",
      labelNames := st.swapNames }
  let g2 : PkgVars :=
    { g with
      memoryResidentLabels := st.residentNames
      memoryAvailableLabels := st.availableNames
      swapTrafficLabels := st.swapNames
      memoryResidentDesc := memoryResidentDesc
      memoryAvailableDesc := memoryAvailableDesc
      swapTrafficDesc := swapTrafficDesc }
  let ch0 : List Metric := []
  -- the libvirt values are in KiB, hence the multiplication by 1024
  let ch1 :=
    if vmStats.memory.rssSet then
      tryToPushMetric
        (newConstMetric memoryResidentDesc ValueType.gauge (vmStats.memory.rss * 1024)
          st.residentVals) ch0
    else ch0
  let ch2 :=
    if vmStats.memory.availableSet then
      tryToPushMetric
        (newConstMetric memoryAvailableDesc ValueType.gauge (vmStats.memory.available * 1024)
          st.availableVals) ch1
    else ch1
  let ch3 :=
    if vmStats.memory.swapInSet then
      tryToPushMetric
        (newConstMetric swapTrafficDesc ValueType.gauge (vmStats.memory.swapIn * 1024)
          st.swapInVals) ch2
    else ch2
  let ch4 :=
    if vmStats.memory.swapOutSet then
      tryToPushMetric
        (newConstMetric swapTrafficDesc ValueType.gauge (vmStats.memory.swapOut * 1024)
          st.swapOutVals) ch3
    else ch3
  (ch4, g2)

/-- One iteration of a metadata loop of `updateVcpu`: the pair is the
(label names, label values) slices. -/
def vcpuAppendEntry (pfx : String) (st : List String × List String)
    (kv : String × String) : List String × List String :=
  (st.1 ++ [pfx ++ labelFormatter kv.1], st.2 ++ [kv.2])

/-- The (label names, label values) pair of one `updateVcpu` iteration,
after both metadata loops have run. -/
def vcpuLoopResult (vmi : VMI) (vcpuId : Nat) (vcpu : DomainStatsVcpu) :
    List String × List String :=
  let st0 : List String × List String :=
    (["node", "namespace", "name", "id", "state"],
     [vmi.nodeName, vmi.nspace, vmi.name, toString vcpuId, toString vcpu.state])
  let st1 := vmi.labels.foldl (vcpuAppendEntry "vmi_k8s_label_") st0
  vmi.annots.foldl (vcpuAppendEntry "vmi_k8s_annotation_") st1

/-- One iteration of the `updateVcpu` loop over `vmStats.Vcpu`. -/
def updateVcpuStep (vmi : VMI) (acc : List Metric × PkgVars)
    (idVcpu : Nat × DomainStatsVcpu) : List Metric × PkgVars :=
  let st2 := vcpuLoopResult vmi idVcpu.1 idVcpu.2
  let vcpuUsageDesc : Desc :=
    { fqName := "kubevirt_vmi_vcpu_seconds", help := "Vcpu elapsed time.",
      labelNames := st2.1 }
  let g2 : PkgVars := { acc.2 with vcpuUsageLabels := st2.1, vcpuUsageDesc := vcpuUsageDesc }
  if !idVcpu.2.stateSet || !idVcpu.2.timeSet then
    (acc.1, g2)
  else
    (tryToPushMetric
      (newConstMetric vcpuUsageDesc ValueType.gauge (idVcpu.2.time / 1000000000) st2.2)
      acc.1, g2)

/-- `updateVcpu`: one sample per vCPU whose state and time are both set;
the time value undergoes the source's integer division by 1000000000
before the float conversion.  The package-level `vcpuUsageLabels` and
`vcpuUsageDesc` are reassigned on every loop iteration. -/
def updateVcpu (vmi : VMI) (vmStats : DomainStats) (g : PkgVars) :
    List Metric × PkgVars :=
  vmStats.vcpu.enum.foldl (updateVcpuStep vmi) ([], g)

/-- The nine lists the metadata loops of `updateBlock` grow for one block
device: label-name slices and read/write label-value slices for the
iops, traffic and times families. -/
structure BlockLoopSt where
  iopsNames : List String
  iopsReadVals : List String
  iopsWriteVals : List String
  trafficNames : List String
  trafficReadVals : List String
  trafficWriteVals : List String
  timesNames : List String
  timesReadVals : List String
  timesWriteVals : List String
deriving DecidableEq

/-- One iteration of a metadata loop of `updateBlock`.  The iops
write-value slice mirrors the source lines
`storageIopsWriteLabelsValues = append(storageIopsReadLabelsValues, val)`:
it is rebuilt from the already-extended read-value slice, not from the
write-value slice. -/
def blockAppendEntry (pfx : String) (st : BlockLoopSt) (kv : String × String) : BlockLoopSt :=
  let iopsReadVals := st.iopsReadVals ++ [kv.2]
  { iopsNames := st.iopsNames ++ [pfx ++ labelFormatter kv.1]
    iopsReadVals := iopsReadVals
    iopsWriteVals := iopsReadVals ++ [kv.2]
    trafficNames := st.trafficNames ++ [pfx ++ labelFormatter kv.1]
    trafficReadVals := st.trafficReadVals ++ [kv.2]
    trafficWriteVals := st.trafficWriteVals ++ [kv.2]
    timesNames := st.timesNames ++ [pfx ++ labelFormatter kv.1]
    timesReadVals := st.timesReadVals ++ [kv.2]
    timesWriteVals := st.timesWriteVals ++ [kv.2] }

/-- The state of the `updateBlock` loops for one block entry after both
the `vmi.Labels` and the `vmi.Annotations` loop have run. -/
def blockLoopResult (vmi : VMI) (block : DomainStatsBlock) : BlockLoopSt :=
  let st0 : BlockLoopSt :=
    { iopsNames := ["node", "namespace", "name", "drive", "type"]
      iopsReadVals := [vmi.nodeName, vmi.nspace, vmi.name, block.name, "read"]
      iopsWriteVals := [vmi.nodeName, vmi.nspace, vmi.name, block.name, "write"]
      trafficNames := ["node", "namespace", "name", "drive", "type"]
      trafficReadVals := [vmi.nodeName, vmi.nspace, vmi.name, block.name, "read"]
      trafficWriteVals := [vmi.nodeName, vmi.nspace, vmi.name, block.name, "write"]
      timesNames := ["node", "namespace", "name", "drive", "type"]
      timesReadVals := [vmi.nodeName, vmi.nspace, vmi.name, block.name, "read"]
      timesWriteVals := [vmi.nodeName, vmi.nspace, vmi.name, block.name, "write"] }
  let st1 := vmi.labels.foldl (blockAppendEntry "vmi_k8s_label_") st0
  vmi.annots.foldl (blockAppendEntry "vmi_k8s_annotation_") st1

/-- `updateBlock`: per block device, emit the read/write request, byte
and time counters guarded by their set flags.  Descriptors and the
package-level slices are reassigned before the `NameSet` check, exactly
as in the source. -/
def updateBlock (vmi : VMI) (vmStats : DomainStats) (g : PkgVars) :
    List Metric × PkgVars :=
  vmStats.block.foldl (fun acc block =>
    let st := blockLoopResult vmi block
    let storageIopsDesc : Desc :=
      { fqName := "kubevirt_vmi_storage_iops_total", help := "I/O operation performed.",
        labelNames := st.iopsNames }
    let storageTrafficDesc : Desc :=
      { fqName := "kubevirt_vmi_storage_traffic_bytes_total", help := "storage traffic.",
        labelNames := st.trafficNames }
    let storageTimesDesc : Desc :=
      { fqName := "kubevirt_vmi_storage_times_ms_total", help := "storage operation time.",
        labelNames := st.timesNames }
    let g2 : PkgVars :=
      { acc.2 with
        storageIopsLabels := st.iopsNames
        storageTrafficLabels := st.trafficNames
        storageTimesLabels := st.timesNames
        storageIopsDesc := storageIopsDesc
        storageTrafficDesc := storageTrafficDesc
        storageTimesDesc := storageTimesDesc }
    if !block.nameSet then
      (acc.1, g2)
    else
      let ch1 :=
        if block.rdReqsSet then
          tryToPushMetric
            (newConstMetric storageIopsDesc ValueType.counter block.rdReqs st.iopsReadVals)
            acc.1
        else acc.1
      let ch2 :=
        if block.wrReqsSet then
          tryToPushMetric
            (newConstMetric storageIopsDesc ValueType.counter block.wrReqs st.iopsWriteVals)
            ch1
        else ch1
      let ch3 :=
        if block.rdBytesSet then
          tryToPushMetric
            (newConstMetric storageTrafficDesc ValueType.counter block.rdBytes st.trafficReadVals)
            ch2
        else ch2
      let ch4 :=
        if block.wrBytesSet then
          tryToPushMetric
            (newConstMetric storageTrafficDesc ValueType.counter block.wrBytes st.trafficWriteVals)
            ch3
        else ch3
      let ch5 :=
        if block.rdTimesSet then
          tryToPushMetric
            (newConstMetric storageTimesDesc ValueType.counter block.rdTimes st.timesReadVals)
            ch4
        else ch4
      let ch6 :=
        if block.wrTimesSet then
          tryToPushMetric
            (newConstMetric storageTimesDesc ValueType.counter block.wrTimes st.timesWriteVals)
            ch5
        else ch5
      (ch6, g2))
    ([], g)

/-- The nine lists the metadata loops of `updateNetwork` grow for one
interface (here all appends target their own slice). -/
structure NetLoopSt where
  bytesNames : List String
  bytesRxVals : List String
  bytesTxVals : List String
  pktsNames : List String
  pktsRxVals : List String
  pktsTxVals : List String
  errsNames : List String
  errsRxVals : List String
  errsTxVals : List String
deriving DecidableEq

/-- One iteration of a metadata loop of `updateNetwork`. -/
def netAppendEntry (pfx : String) (st : NetLoopSt) (kv : String × String) : NetLoopSt :=
  { bytesNames := st.bytesNames ++ [pfx ++ labelFormatter kv.1]
    bytesRxVals := st.bytesRxVals ++ [kv.2]
    bytesTxVals := st.bytesTxVals ++ [kv.2]
    pktsNames := st.pktsNames ++ [pfx ++ labelFormatter kv.1]
    pktsRxVals := st.pktsRxVals ++ [kv.2]
    pktsTxVals := st.pktsTxVals ++ [kv.2]
    errsNames := st.errsNames ++ [pfx ++ labelFormatter kv.1]
    errsRxVals := st.errsRxVals ++ [kv.2]
    errsTxVals := st.errsTxVals ++ [kv.2] }

/-- The state of the `updateNetwork` loops for one interface after both
metadata loops have run. -/
def netLoopResult (vmi : VMI) (net : DomainStatsNet) : NetLoopSt :=
  let st0 : NetLoopSt :=
    { bytesNames := ["node", "namespace", "name", "interface", "type"]
      bytesRxVals := [vmi.nodeName, vmi.nspace, vmi.name, net.name, "rx"]
      bytesTxVals := [vmi.nodeName, vmi.nspace, vmi.name, net.name, "tx"]
      pktsNames := ["node", "namespace", "name", "interface", "type"]
      pktsRxVals := [vmi.nodeName, vmi.nspace, vmi.name, net.name, "rx"]
      pktsTxVals := [vmi.nodeName, vmi.nspace, vmi.name, net.name, "tx"]
      errsNames := ["node", "namespace", "name", "interface", "type"]
      errsRxVals := [vmi.nodeName, vmi.nspace, vmi.name, net.name, "rx"]
      errsTxVals := [vmi.nodeName, vmi.nspace, vmi.name, net.name, "tx"] }
  let st1 := vmi.labels.foldl (netAppendEntry "vmi_k8s_label_") st0
  vmi.annots.foldl (netAppendEntry "vmi_k8s_annotation_") st1

/-- `updateNetwork`: per interface, emit rx/tx byte, packet and error
counters guarded by their set flags. -/
def updateNetwork (vmi : VMI) (vmStats : DomainStats) (g : PkgVars) :
    List Metric × PkgVars :=
  vmStats.net.foldl (fun acc net =>
    let st := netLoopResult vmi net
    let networkTrafficBytesDesc : Desc :=
      { fqName := "kubevirt_vmi_network_traffic_bytes_total", help := "network traffic.",
        labelNames := st.bytesNames }
    let networkTrafficPktsDesc : Desc :=
      { fqName := "kubevirt_vmi_network_traffic_packets_total", help := "network traffic.",
        labelNames := st.pktsNames }
    let networkErrorsDesc : Desc :=
      { fqName := "kubevirt_vmi_network_errors_total", help := "network errors.",
        labelNames := st.errsNames }
    let g2 : PkgVars :=
      { acc.2 with
        networkTrafficBytesLabels := st.bytesNames
        networkTrafficPktsLabels := st.pktsNames
        networkErrorsLabels := st.errsNames
        networkTrafficBytesDesc := networkTrafficBytesDesc
        networkTrafficPktsDesc := networkTrafficPktsDesc
        networkErrorsDesc := networkErrorsDesc }
    if !net.nameSet then
      (acc.1, g2)
    else
      let ch1 :=
        if net.rxBytesSet then
          tryToPushMetric
            (newConstMetric networkTrafficBytesDesc ValueType.counter net.rxBytes st.bytesRxVals)
            acc.1
        else acc.1
      let ch2 :=
        if net.rxPktsSet then
          tryToPushMetric
            (newConstMetric networkTrafficPktsDesc ValueType.counter net.rxPkts st.pktsRxVals)
            ch1
        else ch1
      let ch3 :=
        if net.rxErrsSet then
          tryToPushMetric
            (newConstMetric networkErrorsDesc ValueType.counter net.rxErrs st.errsRxVals)
            ch2
        else ch2
      let ch4 :=
        if net.txBytesSet then
          tryToPushMetric
            (newConstMetric networkTrafficBytesDesc ValueType.counter net.txBytes st.bytesTxVals)
            ch3
        else ch3
      let ch5 :=
        if net.txPktsSet then
          tryToPushMetric
            (newConstMetric networkTrafficPktsDesc ValueType.counter net.txPkts st.pktsTxVals)
            ch4
        else ch4
      let ch6 :=
        if net.txErrsSet then
          tryToPushMetric
            (newConstMetric networkErrorsDesc ValueType.counter net.txErrs st.errsTxVals)
            ch5
        else ch5
      (ch6, g2))
    ([], g)

/-- `phasesMap[key] += 1` on the association-list model of the Go map:
increment the existing entry in place, or append a new entry with
count 1. -/
def bumpPhase : List (String × Nat) → String → List (String × Nat)
  | [], p => [(p, 1)]
  | (q, n) :: rest, p =>
    if q = p then (q, n + 1) :: rest else (q, n) :: bumpPhase rest p

/-- `makeVMIsPhasesMap`: tally the VMIs by lower-cased phase string. -/
def makeVMIsPhasesMap (vmis : List VMI) : List (String × Nat) :=
  vmis.foldl (fun m vmi => bumpPhase m (lowerString vmi.phase)) []

/-- `updateVMIsPhase`: one gauge sample per phases-map entry, labeled
with (node, phase); a metric-construction error skips the entry. -/
def updateVMIsPhase (nodeName : String) (vmis : List VMI) : List Metric :=
  (makeVMIsPhasesMap vmis).foldl (fun ch pc =>
    match newConstMetric vmiCountDesc ValueType.gauge pc.2 [nodeName, pc.1] with
    | Except.ok mv => ch ++ [mv]
    | Except.error _ => ch) []

/-- `updateVersion`: one `MustNewConstMetric` sample with static value 1
labeled with the Go and git version strings of `version.Get()` (the
version strings are parameters of the model); the two label values match
the two label names of `versionDesc`, so `Must` cannot panic here. -/
def updateVersion (goversion kubeversion : String) : List Metric :=
  [{ desc := versionDesc, vtype := ValueType.gauge, value := 1,
     labelValues := [goversion, kubeversion] }]

/-- `statsMaxAge = collectionTimeout + 2*time.Second`, in nanoseconds
(`collectionTimeout` is defined with the concurrent collector, outside
the files at hand, and is a parameter of the model). -/
def statsMaxAge (collectionTimeout : Nat) : Nat :=
  collectionTimeout + 2 * 1000000000

/-- The translation step of `prometheusScraper.Report`: the four update
functions run in source order against the shared package state, and
their metrics are sent to the sink in that order. -/
def reportSamples (vmi : VMI) (vmStats : DomainStats) (g : PkgVars) :
    List Metric × PkgVars :=
  let m1 := updateMemory vmi vmStats g
  let m2 := updateVcpu vmi vmStats m1.2
  let m3 := updateBlock vmi vmStats m2.2
  let m4 := updateNetwork vmi vmStats m3.2
  (m1.1 ++ m2.1 ++ m3.1 ++ m4.1, m4.2)

/-- Sending on the reporting channel: a send on an already-closed
channel panics (the Go runtime raises; modelled as `Except.error`), so
when the sink is closed and there is at least one metric to send, the
delivery panics at the first send and nothing reaches the sink. -/
def sendAll (closed : Bool) (ms : List Metric) : Except String (List Metric) :=
  if closed && !ms.isEmpty then Except.error "send on closed channel"
  else Except.ok ms

/-- Whether an `Except` is a normal result. -/
def exceptIsOk {α : Type} (x : Except String α) : Bool :=
  match x with
  | Except.ok _ => true
  | Except.error _ => false

/-- `prometheusScraper.Report`: translate and deliver; the deferred
`recover()` turns a panic raised by delivering to a closed sink into a
low-severity log line and a normal return.  Result: the metrics that
reached the sink, and whether a panic was recovered (logged). -/
def prometheusScraper.Report (closed : Bool) (vmi : VMI) (vmStats : DomainStats)
    (g : PkgVars) : List Metric × Bool :=
  match sendAll closed (reportSamples vmi vmStats g).1 with
  | Except.ok delivered => (delivered, false)
  | Except.error _ => ([], true)

/-- The per-scrape environment: the outcomes of the external
collaborators (`cmdclient.NewClient`, `cli.GetDomainStats`) and the
elapsed time (ns) observed by `time.Now().Sub(ts)` after the fetch. -/
structure ScrapeOutcome where
  connectOk : Bool
  fetchErr : Bool
  fetchExists : Bool
  vmStats : DomainStats
  elapsed : Nat
deriving DecidableEq

/-- `prometheusScraper.Scrape`: connect, fetch, check existence and
name, apply the staleness check, then `Report` to the (open) sink.
Every failure path returns `none` — nothing delivered, no error
propagated (the Go method has no return values at all). -/
def prometheusScraper.Scrape (collectionTimeout : Nat) (o : ScrapeOutcome)
    (vmi : VMI) (g : PkgVars) : Option (List Metric) :=
  if !o.connectOk then none
  else if o.fetchErr then none
  else if !o.fetchExists || o.vmStats.name == "" then none
  else if statsMaxAge collectionTimeout < o.elapsed then none
  else some (prometheusScraper.Report false vmi o.vmStats g).1

/-- `ret[socketPath] = vmi` on the association-list model of the socket
map: overwrite the entry with the same key, else append. -/
def insertSock : List (String × VMI) → String → VMI → List (String × VMI)
  | [], p, v => [(p, v)]
  | (q, w) :: rest, p, v =>
    if q = p then (q, v) :: rest else (q, w) :: insertSock rest p v

/-- `newvmiSocketMapFromVMIs`: nil for an empty VMI list; otherwise map
each VMI through `cmdclient.FindSocketOnHost` (a parameter of the
model), silently skipping resolution failures. -/
def newvmiSocketMapFromVMIs (findSocket : VMI → Except String String)
    (vmis : List VMI) : List (String × VMI) :=
  if vmis.length = 0 then []
  else
    vmis.foldl (fun ret vmi =>
      match findSocket vmi with
      | Except.error _ => ret
      | Except.ok socketPath => insertSock ret socketPath vmi) []

/-- The external collaborators and configuration one collection cycle
reads: the version strings, the node name, the VMI directory result
(`lookup.VirtualMachinesOnNode`), the socket resolver, the per-socket
scrape outcomes, and the collection timeout. -/
structure CollectEnv where
  goversion : String
  kubeversion : String
  nodeName : String
  listResult : Except String (List VMI)
  findSocket : VMI → Except String String
  outcome : String → VMI → ScrapeOutcome
  collectionTimeout : Nat

/-- Modelled from the spec: `concurrentCollector.Collect` (defined with
the bounded Scheduler, outside the files at hand) runs one scrape task
per (socket, VMI) entry of the socket map and the tasks deliver their
samples to the shared sink; the model serializes the deliveries in map
order, fixing one of the unspecified interleavings, and gives every task
the package state as of the cycle start. -/
def concurrentCollectorCollect (env : CollectEnv) (smap : List (String × VMI))
    (g : PkgVars) : List Metric :=
  smap.foldl (fun ch entry =>
    ch ++ (prometheusScraper.Scrape env.collectionTimeout
            (env.outcome entry.1 entry.2) entry.2 g).getD []) []

/-- `Collector.Collect`: version sample first; abort on a directory
query failure; return immediately on an empty VMI list; otherwise build
the socket map, run the scheduler over it, then emit the phase samples
computed from the full directory-listed VMI set. -/
def Collector.Collect (env : CollectEnv) (g : PkgVars) : List Metric :=
  let ch0 := updateVersion env.goversion env.kubeversion
  match env.listResult with
  | Except.error _ => ch0
  | Except.ok vmis =>
    if vmis.length = 0 then ch0
    else
      let socketToVMIs := newvmiSocketMapFromVMIs env.findSocket vmis
      let scraped := concurrentCollectorCollect env socketToVMIs g
      (ch0 ++ scraped) ++ updateVMIsPhase env.nodeName vmis

/-- One scheduled delivery task, for the panic-isolation model: the
task's view of the sink (already closed or not) and its scrape result. -/
structure ScrapeTask where
  closed : Bool
  vmi : VMI
  vmStats : DomainStats
deriving DecidableEq

/-- Run a list of delivery tasks against the shared sink: concatenate
what each task's `Report` delivered and count the recovered panics. -/
def runTasks (g : PkgVars) (ts : List ScrapeTask) : List Metric × Nat :=
  ts.foldl (fun acc t =>
    let r := prometheusScraper.Report t.closed t.vmi t.vmStats g
    (acc.1 ++ r.1, acc.2 + (if r.2 then 1 else 0))) ([], 0)

/-! ### Concrete fixtures used by the evaluation theorems and witnesses -/

/-- A memory record with every set flag false. -/
def memNone : DomainStatsMemory :=
  { rss := 0, rssSet := false, available := 0, availableSet := false,
    swapIn := 0, swapInSet := false, swapOut := 0, swapOutSet := false }

/-- A stats record with a name and nothing set. -/
def statsEmpty : DomainStats :=
  { name := "testvm", memory := memNone, vcpu := [], block := [], net := [] }

/-- A VMI with one metadata label. -/
def vmi1 : VMI :=
  { nspace := "ns", name := "testvm", nodeName := "node1", phase := "Running",
    labels := [("a", "b")], annots := [] }

/-- A VMI with the spec's sanitization examples as metadata. -/
def vmiK8s : VMI :=
  { nspace := "ns", name := "testvm", nodeName := "node1", phase := "Running",
    labels := [("kubernetes.io/foo", "x")], annots := [("team-id", "y")] }

/-- A block device whose only set statistic is the write-request count. -/
def block1 : DomainStatsBlock :=
  { name := "vda", nameSet := true, rdReqs := 0, rdReqsSet := false,
    wrReqs := 5, wrReqsSet := true, rdBytes := 0, rdBytesSet := false,
    wrBytes := 0, wrBytesSet := false, rdTimes := 0, rdTimesSet := false,
    wrTimes := 0, wrTimesSet := false }

/-- A stats record carrying only `block1`. -/
def statsBlock : DomainStats :=
  { name := "testvm", memory := memNone, vcpu := [], block := [block1], net := [] }

/-- A stats record with only the RSS flag set, at 2048 KiB. -/
def statsRSS2048 : DomainStats :=
  { name := "testvm", memory := { memNone with rss := 2048, rssSet := true },
    vcpu := [], block := [], net := [] }

/-- A stats record with one vCPU at 3000000000 ns. -/
def statsVcpu3 : DomainStats :=
  { name := "testvm", memory := memNone,
    vcpu := [{ state := 1, stateSet := true, time := 3000000000, timeSet := true }],
    block := [], net := [] }

/-- Phase fixtures: two running VMIs and one failed VMI on node-a. -/
def vmiRunA : VMI :=
  { nspace := "ns", name := "r1", nodeName := "node-a", phase := "Running",
    labels := [], annots := [] }

/-- Second running VMI on node-a. -/
def vmiRunB : VMI :=
  { nspace := "ns", name := "r2", nodeName := "node-a", phase := "Running",
    labels := [], annots := [] }

/-- Failed VMI on node-a. -/
def vmiFailA : VMI :=
  { nspace := "ns", name := "f1", nodeName := "node-a", phase := "Failed",
    labels := [], annots := [] }

/-! ### Closed forms of the metadata loops -/

/-- The dynamic label names one VMI's metadata contributes, in traversal
order: prefixed, sanitized label keys then prefixed, sanitized
annotation keys. -/
def dynNames (vmi : VMI) : List String :=
  vmi.labels.map (fun kv => "vmi_k8s_label_" ++ labelFormatter kv.1)
    ++ vmi.annots.map (fun kv => "vmi_k8s_annotation_" ++ labelFormatter kv.1)

/-- The dynamic label values one VMI's metadata contributes. -/
def dynVals (vmi : VMI) : List String :=
  vmi.labels.map Prod.snd ++ vmi.annots.map Prod.snd

theorem memAppend_foldl (pfx : String) (entries : List (String × String)) (st : MemLoopSt) :
    entries.foldl (memAppendEntry pfx) st =
      { residentNames := st.residentNames ++ entries.map (fun kv => pfx ++ labelFormatter kv.1)
        residentVals := st.residentVals ++ entries.map Prod.snd
        availableNames := st.availableNames ++ entries.map (fun kv => pfx ++ labelFormatter kv.1)
        availableVals := st.availableVals ++ entries.map Prod.snd
        swapNames := st.swapNames ++ entries.map (fun kv => pfx ++ labelFormatter kv.1)
        swapInVals := st.swapInVals ++ entries.map Prod.snd
        swapOutVals := st.swapOutVals ++ entries.map Prod.snd } := by
  induction entries generalizing st with
  | nil => simp
  | cons kv rest ih => simp [memAppendEntry, ih]

theorem memLoopResult_eq (vmi : VMI) :
    memLoopResult vmi =
      { residentNames := ["node", "namespace", "name"] ++ dynNames vmi
        residentVals := [vmi.nodeName, vmi.nspace, vmi.name] ++ dynVals vmi
        availableNames := ["node", "namespace", "name"] ++ dynNames vmi
        availableVals := [vmi.nodeName, vmi.nspace, vmi.name] ++ dynVals vmi
        swapNames := ["node", "namespace", "name", "type"] ++ dynNames vmi
        swapInVals := [vmi.nodeName, vmi.nspace, vmi.name, "in"] ++ dynVals vmi
        swapOutVals := [vmi.nodeName, vmi.nspace, vmi.name, "out"] ++ dynVals vmi } := by
  simp [memLoopResult, memAppend_foldl, dynNames, dynVals]

theorem updateMemory_fst (vmi : VMI) (s : DomainStats) (g : PkgVars) :
    (updateMemory vmi s g).1 =
      (if s.memory.rssSet then
        [{ desc := { fqName := "kubevirt_vmi_memory_resident_bytes",
                     help := "resident set size of the process running the domain",
                     labelNames := (memLoopResult vmi).residentNames }
           vtype := ValueType.gauge, value := s.memory.rss * 1024,
           labelValues := (memLoopResult vmi).residentVals }] else []) ++
      (if s.memory.availableSet then
        [{ desc := { fqName := "kubevirt_vmi_memory_available_bytes",
                     help := "amount of usable memory as seen by the domain.",
                     labelNames := (memLoopResult vmi).availableNames }
           vtype := ValueType.gauge, value := s.memory.available * 1024,
           labelValues := (memLoopResult vmi).availableVals }] else []) ++
      (if s.memory.swapInSet then
        [{ desc := { fqName := "kubevirt_vmi_memory_swap_traffic_bytes_total",
                     help := "swap memory traffic.",
                     labelNames := (memLoopResult vmi).swapNames }
           vtype := ValueType.gauge, value := s.memory.swapIn * 1024,
           labelValues := (memLoopResult vmi).swapInVals }] else []) ++
      (if s.memory.swapOutSet then
        [{ desc := { fqName := "kubevirt_vmi_memory_swap_traffic_bytes_total",
                     help := "swap memory traffic.",
                     labelNames := (memLoopResult vmi).swapNames }
           vtype := ValueType.gauge, value := s.memory.swapOut * 1024,
           labelValues := (memLoopResult vmi).swapOutVals }] else []) := by
  have hr : (memLoopResult vmi).residentVals.length = (memLoopResult vmi).residentNames.length := by
    simp [memLoopResult_eq, dynNames, dynVals]
  have ha : (memLoopResult vmi).availableVals.length = (memLoopResult vmi).availableNames.length := by
    simp [memLoopResult_eq, dynNames, dynVals]
  have hi : (memLoopResult vmi).swapInVals.length = (memLoopResult vmi).swapNames.length := by
    simp [memLoopResult_eq, dynNames, dynVals]
  have ho : (memLoopResult vmi).swapOutVals.length = (memLoopResult vmi).swapNames.length := by
    simp [memLoopResult_eq, dynNames, dynVals]
  cases h1 : s.memory.rssSet <;> cases h2 : s.memory.availableSet <;>
    cases h3 : s.memory.swapInSet <;> cases h4 : s.memory.swapOutSet <;>
    simp [updateMemory, newConstMetric, tryToPushMetric, h1, h2, h3, h4, hr, ha, hi, ho]

theorem updateMemory_snd (vmi : VMI) (s : DomainStats) (g : PkgVars) :
    (updateMemory vmi s g).2 =
      { g with
        memoryResidentLabels := (memLoopResult vmi).residentNames
        memoryAvailableLabels := (memLoopResult vmi).availableNames
        swapTrafficLabels := (memLoopResult vmi).swapNames
        memoryResidentDesc :=
          { fqName := "kubevirt_vmi_memory_resident_bytes",
            help := "resident set size of the process running the domain",
            labelNames := (memLoopResult vmi).residentNames }
        memoryAvailableDesc :=
          { fqName := "kubevirt_vmi_memory_available_bytes",
            help := "amount of usable memory as seen by the domain.",
            labelNames := (memLoopResult vmi).availableNames }
        swapTrafficDesc :=
          { fqName := "kubevirt_vmi_memory_swap_traffic_bytes_total",
            help := "swap memory traffic.",
            labelNames := (memLoopResult vmi).swapNames } } := rfl

theorem vcpuAppend_foldl (pfx : String) (entries : List (String × String))
    (st : List String × List String) :
    entries.foldl (vcpuAppendEntry pfx) st =
      (st.1 ++ entries.map (fun kv => pfx ++ labelFormatter kv.1),
       st.2 ++ entries.map Prod.snd) := by
  induction entries generalizing st with
  | nil => simp
  | cons kv rest ih => simp [vcpuAppendEntry, ih]

theorem vcpuLoopResult_eq (vmi : VMI) (vcpuId : Nat) (vcpu : DomainStatsVcpu) :
    vcpuLoopResult vmi vcpuId vcpu =
      (["node", "namespace", "name", "id", "state"] ++ dynNames vmi,
       [vmi.nodeName, vmi.nspace, vmi.name, toString vcpuId, toString vcpu.state] ++ dynVals vmi) := by
  simp [vcpuLoopResult, vcpuAppend_foldl, dynNames, dynVals]

/-- The metric one vCPU entry emits when both its flags are set. -/
def vcpuMetric (vmi : VMI) (idVcpu : Nat × DomainStatsVcpu) : Metric :=
  { desc := { fqName := "kubevirt_vmi_vcpu_seconds", help := "Vcpu elapsed time.",
              labelNames := (vcpuLoopResult vmi idVcpu.1 idVcpu.2).1 }
    vtype := ValueType.gauge
    value := idVcpu.2.time / 1000000000
    labelValues := (vcpuLoopResult vmi idVcpu.1 idVcpu.2).2 }

theorem updateVcpuStep_fst (vmi : VMI) (acc : List Metric × PkgVars)
    (idVcpu : Nat × DomainStatsVcpu) :
    (updateVcpuStep vmi acc idVcpu).1 =
      if idVcpu.2.stateSet && idVcpu.2.timeSet then acc.1 ++ [vcpuMetric vmi idVcpu]
      else acc.1 := by
  have hl : (vcpuLoopResult vmi idVcpu.1 idVcpu.2).2.length =
      (vcpuLoopResult vmi idVcpu.1 idVcpu.2).1.length := by
    simp [vcpuLoopResult_eq, dynNames, dynVals]
  cases hs : idVcpu.2.stateSet <;> cases ht : idVcpu.2.timeSet <;>
    simp [updateVcpuStep, newConstMetric, tryToPushMetric, hs, ht, hl, vcpuMetric]

theorem foldl_vcpuStep (vmi : VMI) (pairs : List (Nat × DomainStatsVcpu))
    (acc : List Metric × PkgVars) :
    (pairs.foldl (updateVcpuStep vmi) acc).1 =
      acc.1 ++ pairs.filterMap (fun p =>
        if p.2.stateSet && p.2.timeSet then some (vcpuMetric vmi p) else none) := by
  induction pairs generalizing acc with
  | nil => simp
  | cons p rest ih =>
    rw [List.foldl_cons, ih, updateVcpuStep_fst]
    cases hs : p.2.stateSet <;> cases ht : p.2.timeSet <;>
      simp [hs, ht, List.filterMap_cons, List.append_assoc]

theorem updateVcpu_map_value (vmi : VMI) (s : DomainStats) (g : PkgVars) :
    (updateVcpu vmi s g).1.map Metric.value =
      s.vcpu.filterMap (fun v =>
        if v.stateSet && v.timeSet then some (v.time / 1000000000) else none) := by
  rw [updateVcpu, foldl_vcpuStep]
  simp only [List.nil_append, List.map_filterMap]
  have h2 : ∀ (p : Nat × DomainStatsVcpu),
      (Option.map Metric.value
        (if p.2.stateSet && p.2.timeSet then some (vcpuMetric vmi p) else none)) =
      ((fun v => if v.stateSet && v.timeSet then some (v.time / 1000000000) else none) ∘ Prod.snd) p := by
    intro p
    cases hc : (p.2.stateSet && p.2.timeSet) <;> simp [hc, vcpuMetric, Function.comp]
  rw [funext h2, ← List.filterMap_map]
  simp [List.enum_map_snd]

/-! ### Phase aggregation lemmas -/

/-- Association-list lookup with default 0, the read side of the Go
phases map. -/
def lookup0 : List (String × Nat) → String → Nat
  | [], _ => 0
  | (q, n) :: rest, p => if q = p then n else lookup0 rest p

/-- The key list of the phases-map model. -/
def keysOf (m : List (String × Nat)) : List String := m.map Prod.fst

theorem bumpPhase_ne_nil (m : List (String × Nat)) (p : String) :
    bumpPhase m p ≠ [] := by
  cases m with
  | nil => simp [bumpPhase]
  | cons e rest =>
    obtain ⟨q, n⟩ := e
    by_cases h : q = p <;> simp [bumpPhase, h]

theorem lookup0_bumpPhase_self (m : List (String × Nat)) (p : String) :
    lookup0 (bumpPhase m p) p = lookup0 m p + 1 := by
  induction m with
  | nil => simp [bumpPhase, lookup0]
  | cons e rest ih =>
    obtain ⟨q, n⟩ := e
    by_cases h : q = p <;> simp [bumpPhase, lookup0, h, ih]

theorem lookup0_bumpPhase_other (m : List (String × Nat)) (p q : String) (hq : q ≠ p) :
    lookup0 (bumpPhase m p) q = lookup0 m q := by
  induction m with
  | nil => simp [bumpPhase, lookup0, Ne.symm hq]
  | cons e rest ih =>
    obtain ⟨r, n⟩ := e
    by_cases h : r = p
    · subst h
      simp [bumpPhase, lookup0, Ne.symm hq]
    · simp [bumpPhase, h, lookup0, ih]

theorem keysOf_bumpPhase (m : List (String × Nat)) (p : String) :
    keysOf (bumpPhase m p) =
      if p ∈ keysOf m then keysOf m else keysOf m ++ [p] := by
  induction m with
  | nil => simp [bumpPhase, keysOf]
  | cons e rest ih =>
    obtain ⟨r, n⟩ := e
    by_cases h : r = p
    · subst h
      simp [bumpPhase, keysOf]
    · have hne : ¬p = r := fun hpr => h hpr.symm
      simp only [bumpPhase, if_neg h, keysOf, List.map_cons] at *
      rw [ih]
      by_cases hm : p ∈ rest.map Prod.fst
      · simp [hm, hne]
      · simp [hm, hne]

theorem keysOf_bumpPhase_nodup (m : List (String × Nat)) (p : String)
    (h : (keysOf m).Nodup) : (keysOf (bumpPhase m p)).Nodup := by
  rw [keysOf_bumpPhase]
  by_cases hm : p ∈ keysOf m
  · simp [hm, h]
  · simp [hm, h, List.nodup_append]

theorem mem_keysOf_bumpPhase (m : List (String × Nat)) (p q : String) :
    q ∈ keysOf (bumpPhase m p) ↔ q ∈ keysOf m ∨ q = p := by
  rw [keysOf_bumpPhase]
  by_cases hm : p ∈ keysOf m
  · rw [if_pos hm]
    constructor
    · exact fun hq => Or.inl hq
    · rintro (hq | rfl)
      · exact hq
      · exact hm
  · simp [hm]

theorem lookup0_of_mem_nodup (m : List (String × Nat)) (p : String) (n : Nat)
    (hnd : (keysOf m).Nodup) (hmem : (p, n) ∈ m) : lookup0 m p = n := by
  induction m with
  | nil => simp at hmem
  | cons e rest ih =>
    obtain ⟨r, k⟩ := e
    simp [keysOf] at hnd
    rcases List.mem_cons.mp hmem with he | hrest
    · injection he with h1 h2
      subst h1; subst h2
      simp [lookup0]
    · have hr : r ≠ p := by
        intro hrp
        subst hrp
        exact hnd.1 n hrest
      simp [lookup0, hr, ih hnd.2 hrest]

/-- The lower-cased phase strings of a VMI list. -/
def loweredPhases (vmis : List VMI) : List String :=
  vmis.map (fun vmi => lowerString vmi.phase)

theorem phasesFold_lookup (vmis : List VMI) (m : List (String × Nat)) (p : String) :
    lookup0 (vmis.foldl (fun m vmi => bumpPhase m (lowerString vmi.phase)) m) p =
      lookup0 m p + (loweredPhases vmis).count p := by
  induction vmis generalizing m with
  | nil => simp [loweredPhases]
  | cons v rest ih =>
    rw [List.foldl_cons, ih]
    by_cases h : lowerString v.phase = p
    · rw [h, lookup0_bumpPhase_self]
      simp [loweredPhases, List.count_cons, h]
      omega
    · rw [lookup0_bumpPhase_other _ _ _ (fun hpq => h hpq.symm)]
      simp [loweredPhases, List.count_cons, h]

theorem phasesFold_mem_keys (vmis : List VMI) (m : List (String × Nat)) (p : String) :
    p ∈ keysOf (vmis.foldl (fun m vmi => bumpPhase m (lowerString vmi.phase)) m) ↔
      p ∈ keysOf m ∨ p ∈ loweredPhases vmis := by
  induction vmis generalizing m with
  | nil => simp [loweredPhases]
  | cons v rest ih =>
    rw [List.foldl_cons, ih, mem_keysOf_bumpPhase]
    simp [loweredPhases]
    tauto

theorem phasesFold_nodup (vmis : List VMI) (m : List (String × Nat))
    (h : (keysOf m).Nodup) :
    (keysOf (vmis.foldl (fun m vmi => bumpPhase m (lowerString vmi.phase)) m)).Nodup := by
  induction vmis generalizing m with
  | nil => exact h
  | cons v rest ih => exact ih _ (keysOf_bumpPhase_nodup _ _ h)

theorem phasesFold_ne_nil (vmis : List VMI) (m : List (String × Nat))
    (h : m ≠ []) :
    vmis.foldl (fun m vmi => bumpPhase m (lowerString vmi.phase)) m ≠ [] := by
  induction vmis generalizing m with
  | nil => exact h
  | cons v rest ih => exact ih _ (bumpPhase_ne_nil _ _)

theorem makeVMIsPhasesMap_lookup (vmis : List VMI) (p : String) :
    lookup0 (makeVMIsPhasesMap vmis) p = (loweredPhases vmis).count p := by
  rw [makeVMIsPhasesMap, phasesFold_lookup]
  simp [lookup0]

theorem makeVMIsPhasesMap_mem_keys (vmis : List VMI) (p : String) :
    p ∈ keysOf (makeVMIsPhasesMap vmis) ↔ p ∈ loweredPhases vmis := by
  rw [makeVMIsPhasesMap, phasesFold_mem_keys]
  simp [keysOf]

theorem makeVMIsPhasesMap_nodup (vmis : List VMI) :
    (keysOf (makeVMIsPhasesMap vmis)).Nodup := by
  rw [makeVMIsPhasesMap]
  exact phasesFold_nodup _ _ (by simp [keysOf])

/-- The phase-count gauge sample for one phases-map entry. -/
def phaseMetric (nodeName : String) (pc : String × Nat) : Metric :=
  { desc := vmiCountDesc, vtype := ValueType.gauge, value := pc.2,
    labelValues := [nodeName, pc.1] }

theorem updateVMIsPhase_eq (nodeName : String) (vmis : List VMI) :
    updateVMIsPhase nodeName vmis =
      (makeVMIsPhasesMap vmis).map (phaseMetric nodeName) := by
  rw [updateVMIsPhase]
  have go : ∀ (m : List (String × Nat)) (ch : List Metric),
      (m.foldl (fun ch pc =>
        match newConstMetric vmiCountDesc ValueType.gauge pc.2 [nodeName, pc.1] with
        | Except.ok mv => ch ++ [mv]
        | Except.error _ => ch) ch) = ch ++ m.map (phaseMetric nodeName) := by
    intro m
    induction m with
    | nil => simp
    | cons pc rest ih =>
      intro ch
      rw [List.foldl_cons, ih]
      simp [newConstMetric, vmiCountDesc, phaseMetric, List.append_assoc]
  rw [go]
  simp

/-! ### Cycle and scheduler helper lemmas -/

/-- A cycle environment whose directory query fails. -/
def envErr : CollectEnv :=
  { goversion := "go1.11", kubeversion := "v0.0.1", nodeName := "node-a",
    listResult := Except.error "directory query failed",
    findSocket := fun _ => Except.error "no socket",
    outcome := fun _ _ =>
      { connectOk := false, fetchErr := false, fetchExists := false,
        vmStats := statsEmpty, elapsed := 0 },
    collectionTimeout := 10000000000 }

/-- A cycle environment with one listed VMI whose socket resolution
fails. -/
def envOneVMI : CollectEnv :=
  { goversion := "go1.11", kubeversion := "v0.0.1", nodeName := "node-a",
    listResult := Except.ok [vmiRunA],
    findSocket := fun _ => Except.error "no socket",
    outcome := fun _ _ =>
      { connectOk := false, fetchErr := false, fetchExists := false,
        vmStats := statsEmpty, elapsed := 0 },
    collectionTimeout := 10000000000 }

/-- The running-phase sample of the phase-aggregation example. -/
def mRunExample : Metric :=
  { desc := vmiCountDesc, vtype := ValueType.gauge, value := 2,
    labelValues := ["node-a", "running"] }

theorem report_closed_fst (vmi : VMI) (s : DomainStats) (g : PkgVars) :
    (prometheusScraper.Report true vmi s g).1 = [] := by
  rw [prometheusScraper.Report, sendAll]
  cases hms : (reportSamples vmi s g).1.isEmpty
  · simp
  · simp
    exact List.isEmpty_iff.mp hms

/-! ### The claims -/

/-- C1: the claim states that the per-family update operations build all
label-name lists and descriptors locally and leave every package-level
label-list and descriptor variable unchanged.  The code does the
opposite: evaluated at a VMI carrying one metadata label, `updateMemory`
reassigns the package-level `memoryResidentLabels` slice (from
["node", "namespace", "name"] to a four-element list carrying the
VMI-specific dynamic label) and the package-level `memoryResidentDesc`
descriptor. -/
theorem claim_c1_eval :
    (updateMemory vmi1 statsEmpty initPkgVars).2.memoryResidentLabels ≠
        initPkgVars.memoryResidentLabels ∧
      (updateMemory vmi1 statsEmpty initPkgVars).2.memoryResidentDesc ≠
        initPkgVars.memoryResidentDesc ∧
      (updateMemory vmi1 statsEmpty initPkgVars).2.memoryResidentLabels =
        ["node", "namespace", "name", "vmi_k8s_label_a"] ∧
      initPkgVars.memoryResidentLabels = ["node", "namespace", "name"] := by
  refine ⟨by decide, by decide, by decide, by decide⟩

/-- C2: the claim states that for every VMI (including ones with
non-empty metadata) the write-direction storage-iops sample has a value
list positionally aligned with the descriptor's label names, with
"write" at the type position.  The code builds the write value list by
appending to the read value list, so at a VMI with one metadata label
and a block device with the write-requests flag set the write value list
has 7 entries against 6 label names, carries "read" at the type
position, and the write sample is dropped entirely (`NewConstMetric`
fails), leaving `updateBlock` with no output at all. -/
theorem claim_c2_eval :
    block1.wrReqsSet = true ∧ vmi1.labels ≠ [] ∧
    (updateBlock vmi1 statsBlock initPkgVars).1 = [] ∧
    (blockLoopResult vmi1 block1).iopsWriteVals.length = 7 ∧
    (blockLoopResult vmi1 block1).iopsNames.length = 6 ∧
    (blockLoopResult vmi1 block1).iopsWriteVals.get? 4 = some "read" := by
  refine ⟨by decide, by decide, by decide, by decide, by decide, by decide⟩

/-- C3: `Scrape` reaches the delivery step (returns `some` delivered
samples) exactly when the socket connection succeeds, the stats fetch
returns no error, the stats record exists with a non-empty name, and the
elapsed time does not exceed `statsMaxAge` = collection timeout plus a
2-second margin; in every other case it returns `none` — nothing
delivered and, by the return type, no error propagated. -/
theorem claim_c3 (ct : Nat) (o : ScrapeOutcome) (vmi : VMI) (g : PkgVars) :
    ((prometheusScraper.Scrape ct o vmi g).isSome = true ↔
      (o.connectOk = true ∧ o.fetchErr = false ∧ o.fetchExists = true ∧
        o.vmStats.name ≠ "" ∧ o.elapsed ≤ statsMaxAge ct)) ∧
    statsMaxAge ct = ct + 2000000000 := by
  constructor
  · by_cases hn : o.vmStats.name = "" <;>
      by_cases hel : statsMaxAge ct < o.elapsed <;>
      cases hc : o.connectOk <;> cases hf : o.fetchErr <;> cases he : o.fetchExists <;>
      simp [prometheusScraper.Scrape, hc, hf, he, hn, hel, Nat.not_lt, Nat.le_of_lt]
    all_goals omega
  · rfl

/-- C4: every memory-family sample value is the source KiB value times
1024 and every vCPU sample value is the source nanosecond time divided
by 1e9 (the source's integer division); in particular an RSS of 2048 KiB
yields 2097152 and a vCPU time of 3000000000 ns yields 3. -/
theorem claim_c4 (vmi : VMI) (s : DomainStats) (g : PkgVars) :
    ((updateMemory vmi s g).1.map Metric.value =
      (if s.memory.rssSet then [s.memory.rss * 1024] else []) ++
      (if s.memory.availableSet then [s.memory.available * 1024] else []) ++
      (if s.memory.swapInSet then [s.memory.swapIn * 1024] else []) ++
      (if s.memory.swapOutSet then [s.memory.swapOut * 1024] else [])) ∧
    ((updateVcpu vmi s g).1.map Metric.value =
      s.vcpu.filterMap (fun v =>
        if v.stateSet && v.timeSet then some (v.time / 1000000000) else none)) ∧
    ((updateMemory vmi statsRSS2048 g).1.map Metric.value = [2097152]) ∧
    ((updateVcpu vmi statsVcpu3 g).1.map Metric.value = [3]) := by
  have hmem : ∀ (s2 : DomainStats), (updateMemory vmi s2 g).1.map Metric.value =
      (if s2.memory.rssSet then [s2.memory.rss * 1024] else []) ++
      (if s2.memory.availableSet then [s2.memory.available * 1024] else []) ++
      (if s2.memory.swapInSet then [s2.memory.swapIn * 1024] else []) ++
      (if s2.memory.swapOutSet then [s2.memory.swapOut * 1024] else []) := by
    intro s2
    rw [updateMemory_fst]
    cases h1 : s2.memory.rssSet <;> cases h2 : s2.memory.availableSet <;>
      cases h3 : s2.memory.swapInSet <;> cases h4 : s2.memory.swapOutSet <;>
      simp [h1, h2, h3, h4]
  refine ⟨hmem s, updateVcpu_map_value vmi s g, ?_, ?_⟩
  · rw [hmem statsRSS2048]
    decide
  · rw [updateVcpu_map_value]
    decide

/-- C5: a memory-family sample is emitted only when its set flag is
true — the number of emitted samples is the number of set flags, an
unset flag means no sample of that family name — and a stats record with
only the RSS flag set yields exactly the resident-bytes sample. -/
theorem claim_c5 (vmi : VMI) (s : DomainStats) (g : PkgVars) :
    ((updateMemory vmi s g).1.length =
      (if s.memory.rssSet then 1 else 0) + (if s.memory.availableSet then 1 else 0) +
      (if s.memory.swapInSet then 1 else 0) + (if s.memory.swapOutSet then 1 else 0)) ∧
    (s.memory.rssSet = false →
      ∀ m ∈ (updateMemory vmi s g).1,
        m.desc.fqName ≠ "kubevirt_vmi_memory_resident_bytes") ∧
    (s.memory.availableSet = false →
      ∀ m ∈ (updateMemory vmi s g).1,
        m.desc.fqName ≠ "kubevirt_vmi_memory_available_bytes") ∧
    (s.memory.swapInSet = false → s.memory.swapOutSet = false →
      ∀ m ∈ (updateMemory vmi s g).1,
        m.desc.fqName ≠ "kubevirt_vmi_memory_swap_traffic_bytes_total") ∧
    (s.memory.rssSet = true → s.memory.availableSet = false → s.memory.swapInSet = false →
      s.memory.swapOutSet = false →
      (updateMemory vmi s g).1.map (fun m => m.desc.fqName) =
        ["kubevirt_vmi_memory_resident_bytes"]) := by
  rw [updateMemory_fst]
  cases h1 : s.memory.rssSet <;> cases h2 : s.memory.availableSet <;>
    cases h3 : s.memory.swapInSet <;> cases h4 : s.memory.swapOutSet <;>
    simp [h1, h2, h3, h4]

/-- C5 witness: the only-RSS stats record yields exactly the
resident-bytes sample. -/
theorem claim_c5_witness :
    (updateMemory vmi1 statsRSS2048 initPkgVars).1.map (fun m => m.desc.fqName) =
      ["kubevirt_vmi_memory_resident_bytes"] :=
  (claim_c5 vmi1 statsRSS2048 initPkgVars).2.2.2.2 rfl rfl rfl rfl

/-- C6: the label-name list of the memory descriptors is the base list
followed by exactly one entry per metadata label key (prefixed
"vmi_k8s_label_") and one per annotation key (prefixed
"vmi_k8s_annotation_"), each key sanitized by replacing '.', '/', '-'
with '_'; in particular label key kubernetes.io/foo yields
vmi_k8s_label_kubernetes_io_foo and annotation key team-id yields
vmi_k8s_annotation_team_id. -/
theorem claim_c6 (vmi : VMI) (s : DomainStats) (g : PkgVars) :
    ((updateMemory vmi s g).2.memoryResidentLabels =
      ["node", "namespace", "name"]
        ++ vmi.labels.map (fun kv => "vmi_k8s_label_" ++ labelFormatter kv.1)
        ++ vmi.annots.map (fun kv => "vmi_k8s_annotation_" ++ labelFormatter kv.1)) ∧
    ((updateMemory vmi s g).2.memoryResidentDesc.labelNames =
      ["node", "namespace", "name"]
        ++ vmi.labels.map (fun kv => "vmi_k8s_label_" ++ labelFormatter kv.1)
        ++ vmi.annots.map (fun kv => "vmi_k8s_annotation_" ++ labelFormatter kv.1)) ∧
    (labelFormatter "kubernetes.io/foo" = "kubernetes_io_foo") ∧
    (labelFormatter "team-id" = "team_id") ∧
    ((updateMemory vmiK8s s g).2.memoryResidentDesc.labelNames =
      ["node", "namespace", "name", "vmi_k8s_label_kubernetes_io_foo",
       "vmi_k8s_annotation_team_id"]) := by
  refine ⟨?_, ?_, by decide, by decide, ?_⟩
  · rw [updateMemory_snd]
    simp [memLoopResult_eq, dynNames]
  · rw [updateMemory_snd]
    simp [memLoopResult_eq, dynNames]
  · rw [updateMemory_snd]
    simp only [memLoopResult_eq, dynNames]
    decide

/-- C7: phase aggregation emits at most one sample per label-value pair,
a (node, p) sample exists exactly for the lower-cased phases of the
listed VMIs, every sample is a gauge on `vmiCountDesc` whose value is
the number of listed VMIs in that phase, and the Running/Running/Failed
example yields exactly (node-a, running)=2 and (node-a, failed)=1. -/
theorem claim_c7 (nodeName : String) (vmis : List VMI) :
    (((updateVMIsPhase nodeName vmis).map Metric.labelValues).Nodup) ∧
    (∀ p : String,
      [nodeName, p] ∈ (updateVMIsPhase nodeName vmis).map Metric.labelValues ↔
        p ∈ loweredPhases vmis) ∧
    (∀ m ∈ updateVMIsPhase nodeName vmis,
      m.desc = vmiCountDesc ∧ m.vtype = ValueType.gauge ∧
      ∃ p, m.labelValues = [nodeName, p] ∧
        m.value = (loweredPhases vmis).count p) ∧
    (updateVMIsPhase "node-a" [vmiRunA, vmiRunB, vmiFailA] =
      [{ desc := vmiCountDesc, vtype := ValueType.gauge, value := 2,
         labelValues := ["node-a", "running"] },
       { desc := vmiCountDesc, vtype := ValueType.gauge, value := 1,
         labelValues := ["node-a", "failed"] }]) := by
  have hmapvals : (updateVMIsPhase nodeName vmis).map Metric.labelValues =
      (keysOf (makeVMIsPhasesMap vmis)).map (fun p => [nodeName, p]) := by
    rw [updateVMIsPhase_eq]
    simp [keysOf, phaseMetric, Function.comp]
  refine ⟨?_, ?_, ?_, by decide⟩
  · rw [hmapvals]
    exact (makeVMIsPhasesMap_nodup vmis).map (fun p q hpq => by simpa using hpq)
  · intro p
    rw [hmapvals, ← makeVMIsPhasesMap_mem_keys]
    constructor
    · intro hmem
      rcases List.mem_map.mp hmem with ⟨q, hq, hlist⟩
      have hqp : q = p := by simpa using hlist
      exact hqp ▸ hq
    · intro hmem
      exact List.mem_map.mpr ⟨p, hmem, rfl⟩
  · intro m hm
    rw [updateVMIsPhase_eq] at hm
    rcases List.mem_map.mp hm with ⟨pc, hpc, hme⟩
    subst hme
    refine ⟨rfl, rfl, pc.1, rfl, ?_⟩
    have h1 : lookup0 (makeVMIsPhasesMap vmis) pc.1 = pc.2 :=
      lookup0_of_mem_nodup _ _ _ (makeVMIsPhasesMap_nodup vmis) hpc
    rw [← makeVMIsPhasesMap_lookup, h1]
    rfl

/-- C7 witness: the (node-a, running) sample of the example carries the
count of running VMIs. -/
theorem claim_c7_witness :
    mRunExample.desc = vmiCountDesc ∧ mRunExample.vtype = ValueType.gauge ∧
    ∃ p, mRunExample.labelValues = ["node-a", p] ∧
      mRunExample.value = (loweredPhases [vmiRunA, vmiRunB, vmiFailA]).count p :=
  (claim_c7 "node-a" [vmiRunA, vmiRunB, vmiFailA]).2.2.1 mRunExample (by decide)

/-- C8: a collection cycle emits the version sample first; a directory
query failure aborts the cycle with only the version sample emitted, and
an empty VMI list makes the cycle return immediately after the version
sample. -/
theorem claim_c8 (env : CollectEnv) (g : PkgVars) :
    ((Collector.Collect env g).take 1 = updateVersion env.goversion env.kubeversion) ∧
    (∀ e, env.listResult = Except.error e →
      Collector.Collect env g = updateVersion env.goversion env.kubeversion) ∧
    (env.listResult = Except.ok [] →
      Collector.Collect env g = updateVersion env.goversion env.kubeversion) := by
  refine ⟨?_, ?_, ?_⟩
  · cases hl : env.listResult with
    | error e => simp [Collector.Collect, hl, updateVersion]
    | ok vmis =>
      cases vmis with
      | nil => simp [Collector.Collect, hl, updateVersion]
      | cons v rest => simp [Collector.Collect, hl, updateVersion, List.take]
  · intro e he
    simp [Collector.Collect, he]
  · intro he
    simp [Collector.Collect, he]

/-- C8 witness: a failing directory query leaves exactly the version
sample. -/
theorem claim_c8_witness :
    Collector.Collect envErr initPkgVars = updateVersion "go1.11" "v0.0.1" :=
  (claim_c8 envErr initPkgVars).2.1 "directory query failed" rfl

/-- C9: a panic raised by delivering to a closed sink is caught inside
`Report` — whenever the send fails, `Report` still returns normally with
nothing delivered and the panic logged — and in a cycle of delivery
tasks each task's contribution to the sink depends only on its own
closed flag: closed tasks contribute nothing, open tasks contribute
exactly their own samples. -/
theorem claim_c9 (g : PkgVars) (ts : List ScrapeTask) (closed : Bool)
    (vmi : VMI) (s : DomainStats) :
    (exceptIsOk (sendAll closed (reportSamples vmi s g).1) = false →
      prometheusScraper.Report closed vmi s g = ([], true)) ∧
    ((runTasks g ts).1 = ts.flatMap (fun t =>
      if t.closed then [] else (prometheusScraper.Report false t.vmi t.vmStats g).1)) := by
  constructor
  · intro hfail
    rw [prometheusScraper.Report]
    cases hsend : sendAll closed (reportSamples vmi s g).1 with
    | ok delivered =>
      rw [hsend] at hfail
      simp [exceptIsOk] at hfail
    | error e => rfl
  · have go : ∀ (ts : List ScrapeTask) (acc : List Metric × Nat),
        (ts.foldl (fun acc t =>
          let r := prometheusScraper.Report t.closed t.vmi t.vmStats g
          (acc.1 ++ r.1, acc.2 + (if r.2 then 1 else 0))) acc).1 =
          acc.1 ++ ts.flatMap (fun t =>
            if t.closed then [] else (prometheusScraper.Report false t.vmi t.vmStats g).1) := by
      intro ts
      induction ts with
      | nil => intro acc; simp
      | cons t rest ih =>
        intro acc
        rw [List.foldl_cons, ih]
        have hhead : (prometheusScraper.Report t.closed t.vmi t.vmStats g).1 =
            if t.closed then [] else (prometheusScraper.Report false t.vmi t.vmStats g).1 := by
          cases hc : t.closed
          · simp
          · simp [report_closed_fst]
        simp [hhead, List.append_assoc]
    rw [runTasks, go]
    simp

/-- C9 witness: at a closed sink with a non-empty sample set the panic
is recovered: `Report` returns normally with nothing delivered. -/
theorem claim_c9_witness :
    prometheusScraper.Report true vmi1 statsRSS2048 initPkgVars = ([], true) :=
  (claim_c9 initPkgVars [] true vmi1 statsRSS2048).1 (by decide)

/-- C10: for a non-empty directory-listed VMI set the cycle output ends
with the phase samples computed from the full VMI list — a term that
does not depend on the socket resolver or the scrape outcomes — those
phase samples are non-empty even when every socket resolution fails, and
changing resolver and outcomes leaves the phase segment unchanged. -/
theorem claim_c10 (env : CollectEnv) (g : PkgVars) (vmis : List VMI)
    (hok : env.listResult = Except.ok vmis) (hne : vmis ≠ []) :
    (Collector.Collect env g =
      updateVersion env.goversion env.kubeversion
        ++ concurrentCollectorCollect env (newvmiSocketMapFromVMIs env.findSocket vmis) g
        ++ updateVMIsPhase env.nodeName vmis) ∧
    updateVMIsPhase env.nodeName vmis ≠ [] ∧
    (∀ (fs : VMI → Except String String) (oc : String → VMI → ScrapeOutcome),
      ∃ mid, Collector.Collect { env with findSocket := fs, outcome := oc } g =
        updateVersion env.goversion env.kubeversion ++ mid
          ++ updateVMIsPhase env.nodeName vmis) := by
  have hlen : ¬vmis.length = 0 := by
    simpa [List.length_eq_zero] using hne
  have main : ∀ (env2 : CollectEnv), env2.listResult = Except.ok vmis →
      Collector.Collect env2 g =
        updateVersion env2.goversion env2.kubeversion
          ++ concurrentCollectorCollect env2 (newvmiSocketMapFromVMIs env2.findSocket vmis) g
          ++ updateVMIsPhase env2.nodeName vmis := by
    intro env2 hok2
    simp [Collector.Collect, hok2, hlen]
  refine ⟨main env hok, ?_, ?_⟩
  · rw [updateVMIsPhase_eq]
    intro hmap
    have hmk : makeVMIsPhasesMap vmis ≠ [] := by
      rw [makeVMIsPhasesMap]
      cases vmis with
      | nil => exact absurd rfl hne
      | cons v rest =>
        rw [List.foldl_cons]
        exact phasesFold_ne_nil rest _ (bumpPhase_ne_nil _ _)
    exact hmk (List.map_eq_nil_iff.mp hmap)
  · intro fs oc
    exact ⟨_, main { env with findSocket := fs, outcome := oc } hok⟩

/-- C10 witness: with one listed VMI and every socket resolution
failing, the cycle still ends with a non-empty phase segment. -/
theorem claim_c10_witness :
    (Collector.Collect envOneVMI initPkgVars =
      updateVersion "go1.11" "v0.0.1"
        ++ concurrentCollectorCollect envOneVMI
            (newvmiSocketMapFromVMIs envOneVMI.findSocket [vmiRunA]) initPkgVars
        ++ updateVMIsPhase "node-a" [vmiRunA]) ∧
    updateVMIsPhase "node-a" [vmiRunA] ≠ [] := by
  have h := claim_c10 envOneVMI initPkgVars [vmiRunA] rfl (by decide)
  exact ⟨h.1, h.2.1⟩

end KVMetrics
